import Mathlib

/-!
Shallow embedding of the poke-card-keeper-hub client logic.

The data model follows `src/integrations/supabase/types.ts`; the operations
follow `src/pages/BoosterGame.tsx` and `src/pages/CardDetails.tsx`.  Backend
interactions are modelled by passing each remote call's outcome as an explicit
argument: `Except.error ()` stands for a thrown promise rejection, while
`Except.ok` carries the `{ data, error }`-shaped result object the client
destructures.  Every operation additionally returns the toast it raised (if
any) and the list of backend calls it performed, so that "no backend read" and
"no user-visible notification" are provable statements.
-/

namespace PokeHub

/-- Row of the `cards` table (`src/integrations/supabase/types.ts`). -/
structure Card where
  id : String
  name : String
  number : String
  rarity : String
  type : String
  hp : Option Int
  set_id : String
  artist : Option String
  image_url : String
  supertype : Option String
  deriving Repr, DecidableEq

/-- The `CardWithCollectionStatus` view type: a `Card` plus an `owned` flag
(spread `{ ...card, owned }` in `BoosterGame.tsx`). -/
structure CardWithCollectionStatus extends Card where
  owned : Bool
  deriving Repr, DecidableEq

/-- Shape of a `game_collections` row as consumed by `BoosterGame.tsx`
(only `card_id` is ever read: `item => item.card_id`). -/
structure GameCollectionRow where
  card_id : String
  deriving Repr, DecidableEq

/-- The `{ data, error }` result object returned (not thrown) by a table
query or RPC call. -/
structure TableOutcome (α : Type) where
  data : Option α
  error : Bool
  deriving Repr, DecidableEq

/-- The `{ error }` result object of a mutation call. -/
structure MutationOutcome where
  error : Bool
  deriving Repr, DecidableEq

/-- The `{ count, error }` result object of `getGameCollectionCount`. -/
structure CountOutcome where
  count : Option Nat
  error : Bool
  deriving Repr, DecidableEq

/-- The `{ data, error }` result object of the `get_game_collection_count_safe`
RPC (`data` is a number or null). -/
structure RpcCountOutcome where
  data : Option Nat
  error : Bool
  deriving Repr, DecidableEq

/-- A toast notification (`toast.success` / `toast.info` / `toast.error`). -/
inductive Toast where
  | success (msg : String)
  | info (msg : String)
  | error (msg : String)
  deriving Repr, DecidableEq

/-- One backend interaction performed by the client. -/
inductive BackendCall where
  | cardsQuery
  | gameCollectionQuery
  | gameCollectionRpc
  | insertGameCollection
  | addCardRpc
  | countQuery
  | countRpc
  deriving Repr, DecidableEq

/-- Local component state of `BoosterGame.tsx` (the `useState` hooks). -/
structure BoosterState where
  isLoggedIn : Bool
  showAuthModal : Bool
  username : String
  boosterCards : List CardWithCollectionStatus
  isOpened : Bool
  isLoading : Bool
  gameCollectionCount : Nat
  deriving Repr, DecidableEq

/-- Annotation of fetched cards with ownership, `BoosterGame.tsx` lines
147-150 and 158-161:
`randomCards.map(card => ({ ...card, owned: ownedCardIds.includes(card.id) }))`. -/
def cardsWithStatus (ownedCardIds : List String) (randomCards : List Card) :
    List CardWithCollectionStatus :=
  randomCards.map fun card => { toCard := card, owned := ownedCardIds.contains card.id }

/-- The booster card selection query, `BoosterGame.tsx` lines 111-115:
`supabase.from('cards').select('*').order('id').limit(5)` — the rows of the
`cards` table sorted by `id`, truncated to the first 5. -/
def selectBoosterCards (cardsTable : List Card) : List Card :=
  (cardsTable.mergeSort fun a b => a.id ≤ b.id).take 5

/-- `openBoosterPack` (`BoosterGame.tsx` lines 102-173).  `cardsRes` is the
outcome of the cards query, `collectionRes` that of `getUserGameCollection`,
`rpcRes` that of the `get_user_game_collection_safe` RPC.  Returns the new
state, the toast raised, and the backend calls performed (in order). -/
def openBoosterPack (st : BoosterState)
    (cardsRes : Except Unit (TableOutcome (List Card)))
    (collectionRes : Except Unit (TableOutcome (List GameCollectionRow)))
    (rpcRes : Except Unit (TableOutcome (List GameCollectionRow))) :
    BoosterState × Option Toast × List BackendCall :=
  if st.isLoggedIn = false then
    ({ st with showAuthModal := true }, none, [])
  else
    match cardsRes with
    | Except.error _ =>
      ({ st with isLoading := false }, some (Toast.error "Failed to open booster pack"),
        [BackendCall.cardsQuery])
    | Except.ok cardsOut =>
      if cardsOut.error then
        ({ st with isLoading := false }, some (Toast.error "Failed to open booster pack"),
          [BackendCall.cardsQuery])
      else
        match cardsOut.data with
        | none =>
          ({ st with isLoading := false }, some (Toast.error "Failed to open booster pack"),
            [BackendCall.cardsQuery])
        | some randomCards =>
          match collectionRes with
          | Except.error _ =>
            ({ st with isLoading := false }, some (Toast.error "Failed to open booster pack"),
              [BackendCall.cardsQuery, BackendCall.gameCollectionQuery])
          | Except.ok collOut =>
            if collOut.error || collOut.data.isNone then
              match rpcRes with
              | Except.error _ =>
                ({ st with isLoading := false },
                  some (Toast.error "Failed to open booster pack"),
                  [BackendCall.cardsQuery, BackendCall.gameCollectionQuery,
                    BackendCall.gameCollectionRpc])
              | Except.ok rpcOut =>
                if rpcOut.error then
                  ({ st with
                      boosterCards := randomCards.map fun card =>
                        { toCard := card, owned := false },
                      isOpened := true, isLoading := false },
                    none,
                    [BackendCall.cardsQuery, BackendCall.gameCollectionQuery,
                      BackendCall.gameCollectionRpc])
                else
                  let ownedCardIds :=
                    (rpcOut.data.map (List.map GameCollectionRow.card_id)).getD [];
                  ({ st with
                      boosterCards := cardsWithStatus ownedCardIds randomCards,
                      isOpened := true, isLoading := false },
                    none,
                    [BackendCall.cardsQuery, BackendCall.gameCollectionQuery,
                      BackendCall.gameCollectionRpc])
            else
              let ownedCardIds := (collOut.data.getD []).map GameCollectionRow.card_id;
              ({ st with
                  boosterCards := cardsWithStatus ownedCardIds randomCards,
                  isOpened := true, isLoading := false },
                none,
                [BackendCall.cardsQuery, BackendCall.gameCollectionQuery])

/-- The local patch applied on a confirmed successful add
(`BoosterGame.tsx` lines 199-207): mark the card owned in `boosterCards`
and increment the displayed count. -/
def applyAddSuccess (st : BoosterState) (cardId : String) : BoosterState :=
  { st with
    boosterCards := st.boosterCards.map fun card =>
      if card.id == cardId then { card with owned := true } else card,
    gameCollectionCount := st.gameCollectionCount + 1 }

/-- `addToGameCollection` (`BoosterGame.tsx` lines 175-214).  `insertRes` is
the outcome of the `addCardToGameCollection` helper, `rpcRes` that of the
`add_card_to_game_collection_safe` RPC fallback. -/
def addToGameCollection (st : BoosterState) (cardId : String)
    (insertRes : Except Unit MutationOutcome)
    (rpcRes : Except Unit MutationOutcome) :
    BoosterState × Option Toast × List BackendCall :=
  if st.isLoggedIn = false then
    ({ st with showAuthModal := true }, none, [])
  else
    match insertRes with
    | Except.error _ =>
      (st, some (Toast.error "Failed to add card to collection"),
        [BackendCall.insertGameCollection])
    | Except.ok insOut =>
      if insOut.error then
        match rpcRes with
        | Except.error _ =>
          (st, some (Toast.error "Failed to add card to collection"),
            [BackendCall.insertGameCollection, BackendCall.addCardRpc])
        | Except.ok rpcOut =>
          if rpcOut.error then
            (st, some (Toast.error "Failed to add card to collection"),
              [BackendCall.insertGameCollection, BackendCall.addCardRpc])
          else
            (applyAddSuccess st cardId,
              some (Toast.success "Card added to your game collection!"),
              [BackendCall.insertGameCollection, BackendCall.addCardRpc])
      else
        (applyAddSuccess st cardId,
          some (Toast.success "Card added to your game collection!"),
          [BackendCall.insertGameCollection])

/-- `fetchGameCollectionCount` (`BoosterGame.tsx` lines 54-87).  The RPC
fallback lives in the `catch` block, so it only runs when the primary helper
threw; an `{ error }`-returning primary just logs and returns. -/
def fetchGameCollectionCount (prevCount : Nat)
    (primaryRes : Except Unit CountOutcome)
    (rpcRes : Except Unit RpcCountOutcome) :
    Nat × Option Toast × List BackendCall :=
  match primaryRes with
  | Except.ok out =>
    if out.error then (prevCount, none, [BackendCall.countQuery])
    else (out.count.getD 0, none, [BackendCall.countQuery])
  | Except.error _ =>
    match rpcRes with
    | Except.error _ => (prevCount, none, [BackendCall.countQuery, BackendCall.countRpc])
    | Except.ok out =>
      if out.error then (prevCount, none, [BackendCall.countQuery, BackendCall.countRpc])
      else
        match out.data with
        | some n => (n, none, [BackendCall.countQuery, BackendCall.countRpc])
        | none => (prevCount, none, [BackendCall.countQuery, BackendCall.countRpc])

/-- Modelled from the spec: the backing store's insert into `game_collections`
(the helper `addCardToGameCollection` in `src/types/database` and the table's
constraint are not among the sources).  Spec 4.2: "inserts a new ownership row
if absent (duplicate inserts must not create duplicate rows — de-duplication
is the backing store's responsibility, typically via a uniqueness constraint
on (user, card))". -/
def insertGameCollectionRow (rows : List (String × String)) (userId cardId : String) :
    List (String × String) :=
  if (userId, cardId) ∈ rows then rows else rows ++ [(userId, cardId)]

/-- A card record of the mock catalog used by `CardDetails.tsx` (only the
fields the page reads). -/
structure MockCard where
  id : String
  setId : String
  name : String
  number : String
  rarity : String
  type : String
  hp : Nat
  description : String
  imageUrl : String
  owned : Bool
  deriving Repr, DecidableEq

/-- A set record of the mock catalog. -/
structure MockSet where
  id : String
  name : String
  deriving Repr, DecidableEq

/-- The mock catalog backing `getCardDetails` / `getSetDetails`. -/
structure MockCatalog where
  sets : List MockSet
  cards : List MockCard
  deriving Repr, DecidableEq

/-- Modelled from the spec: `getCardDetails` from `src/data/mockData` (absent
from the sources).  Spec 2: the catalog reader "fetches set and card records
by id for display" — the card with the given set id and card id, or none. -/
def getCardDetails (catalog : MockCatalog) (setId cardId : String) : Option MockCard :=
  catalog.cards.find? fun c => c.setId == setId && c.id == cardId

/-- Modelled from the spec: `getSetDetails` from `src/data/mockData` (absent
from the sources) — the set record with the given id, or none. -/
def getSetDetails (catalog : MockCatalog) (setId : String) : Option MockSet :=
  catalog.sets.find? fun s => s.id == setId

/-- What the `CardDetails` page renders before reaching the full layout. -/
inductive CardDetailsView where
  | missingParams
  | notFound
  | details (card : MockCard) (cardSet : MockSet)
  deriving Repr, DecidableEq

/-- The guard structure of the `CardDetails` component
(`CardDetails.tsx` lines 27-36): missing route params render an inline
requirement message; a failed catalog lookup renders an inline
"Card not found"; otherwise the detail layout is rendered. -/
def renderCardDetails (setId cardId : Option String) (catalog : MockCatalog) :
    CardDetailsView :=
  match setId, cardId with
  | some s, some c =>
    match getCardDetails catalog s c, getSetDetails catalog s with
    | some cd, some sd => CardDetailsView.details cd sd
    | some _, none => CardDetailsView.notFound
    | none, _ => CardDetailsView.notFound
  | _, _ => CardDetailsView.missingParams

/-- Local component state of `CardDetails.tsx`. -/
structure CardDetailsState where
  isLoggedIn : Bool
  showAuthModal : Bool
  username : String
  isOwned : Bool
  deriving Repr, DecidableEq

/-- `handleToggleOwned` (`CardDetails.tsx` lines 51-59): flip the local
`isOwned` flag and toast; no backend call is made. -/
def handleToggleOwned (cardName : String) (st : CardDetailsState) :
    CardDetailsState × Toast × List BackendCall :=
  ({ st with isOwned := !st.isOwned },
    if st.isOwned = false then
      Toast.success ("Added " ++ cardName ++ " to your collection!")
    else
      Toast.info ("Removed " ++ cardName ++ " from your collection"),
    [])

/-- A concrete card used in witnesses and counterexamples. -/
def mkCard (i : String) : Card :=
  { id := i, name := i, number := "1", rarity := "Common", type := "Fire",
    hp := some 50, set_id := "base1", artist := none, image_url := "", supertype := none }

/-- A concrete logged-in component state used in witnesses. -/
def sampleState : BoosterState :=
  { isLoggedIn := true, showAuthModal := false, username := "u1",
    boosterCards := [], isOpened := false, isLoading := true, gameCollectionCount := 0 }

/-- Claim C6: invoking `openBoosterPack` while logged out opens the auth modal
and returns immediately: no backend call is performed, no toast is raised, and
every other state field is unchanged. -/
theorem openBoosterPack_logged_out_no_backend (st : BoosterState)
    (cardsRes : Except Unit (TableOutcome (List Card)))
    (collectionRes rpcRes : Except Unit (TableOutcome (List GameCollectionRow)))
    (hOut : st.isLoggedIn = false) :
    openBoosterPack st cardsRes collectionRes rpcRes
      = ({ st with showAuthModal := true }, none, []) := by
  simp [openBoosterPack, hOut]

/-- Witness for C6 at a concrete logged-out state. -/
theorem openBoosterPack_logged_out_no_backend_witness :
    ({ sampleState with isLoggedIn := false } : BoosterState).isLoggedIn = false ∧
    openBoosterPack { sampleState with isLoggedIn := false }
        (Except.error ()) (Except.error ()) (Except.error ())
      = ({ sampleState with isLoggedIn := false, showAuthModal := true }, none, []) :=
  ⟨rfl, openBoosterPack_logged_out_no_backend _ _ _ _ rfl⟩

/-- Claim C2: when the primary game-collection query fails (error result or
null data) and the fallback RPC also fails, every card of the fetched pack is
annotated `owned := false` and the pack is still presented
(`isOpened = true`). -/
theorem openBoosterPack_fail_open_owned_false (st : BoosterState)
    (randomCards : List Card) (collOut rpcOut : TableOutcome (List GameCollectionRow))
    (hLogin : st.isLoggedIn = true)
    (hCollFail : collOut.error = true ∨ collOut.data = none)
    (hRpcFail : rpcOut.error = true) :
    (openBoosterPack st (Except.ok ⟨some randomCards, false⟩) (Except.ok collOut)
        (Except.ok rpcOut)).1.boosterCards
      = randomCards.map (fun card => { toCard := card, owned := false }) ∧
    (openBoosterPack st (Except.ok ⟨some randomCards, false⟩) (Except.ok collOut)
        (Except.ok rpcOut)).1.isOpened = true := by
  rcases hCollFail with h | h <;>
    simp [openBoosterPack, hLogin, h, hRpcFail]

/-- Witness for C2 at a concrete two-card pack with both paths failing. -/
theorem openBoosterPack_fail_open_owned_false_witness :
    sampleState.isLoggedIn = true ∧
    ((⟨none, true⟩ : TableOutcome (List GameCollectionRow)).error = true ∨
      (⟨none, true⟩ : TableOutcome (List GameCollectionRow)).data = none) ∧
    (⟨none, true⟩ : TableOutcome (List GameCollectionRow)).error = true ∧
    (openBoosterPack sampleState
        (Except.ok ⟨some [mkCard "c1", mkCard "c2"], false⟩)
        (Except.ok ⟨none, true⟩) (Except.ok ⟨none, true⟩)).1.boosterCards
      = [{ toCard := mkCard "c1", owned := false }, { toCard := mkCard "c2", owned := false }] ∧
    (openBoosterPack sampleState
        (Except.ok ⟨some [mkCard "c1", mkCard "c2"], false⟩)
        (Except.ok ⟨none, true⟩) (Except.ok ⟨none, true⟩)).1.isOpened = true :=
  ⟨rfl, Or.inl rfl, rfl,
    (openBoosterPack_fail_open_owned_false sampleState [mkCard "c1", mkCard "c2"]
        ⟨none, true⟩ ⟨none, true⟩ rfl (Or.inl rfl) rfl).1,
    (openBoosterPack_fail_open_owned_false sampleState [mkCard "c1", mkCard "c2"]
        ⟨none, true⟩ ⟨none, true⟩ rfl (Or.inl rfl) rfl).2⟩

/-- Claim C3: the fallback path (primary query failed, RPC returned
`{card_id}` rows) yields exactly the state the primary path would have
produced from the same ownership rows. -/
theorem openBoosterPack_fallback_refines_primary (st : BoosterState)
    (randomCards : List Card) (rows : List GameCollectionRow)
    (collOut : TableOutcome (List GameCollectionRow))
    (rpcAfterPrimary : Except Unit (TableOutcome (List GameCollectionRow)))
    (hLogin : st.isLoggedIn = true)
    (hCollFail : collOut.error = true ∨ collOut.data = none) :
    (openBoosterPack st (Except.ok ⟨some randomCards, false⟩) (Except.ok collOut)
        (Except.ok ⟨some rows, false⟩)).1
      = (openBoosterPack st (Except.ok ⟨some randomCards, false⟩)
          (Except.ok ⟨some rows, false⟩) rpcAfterPrimary).1 := by
  rcases hCollFail with h | h <;>
    simp [openBoosterPack, hLogin, h]

/-- Witness for C3 at a concrete pack and ownership row set. -/
theorem openBoosterPack_fallback_refines_primary_witness :
    sampleState.isLoggedIn = true ∧
    ((⟨none, true⟩ : TableOutcome (List GameCollectionRow)).error = true ∨
      (⟨none, true⟩ : TableOutcome (List GameCollectionRow)).data = none) ∧
    (openBoosterPack sampleState
        (Except.ok ⟨some [mkCard "c1", mkCard "c2"], false⟩)
        (Except.ok ⟨none, true⟩) (Except.ok ⟨some [⟨"c1"⟩], false⟩)).1
      = (openBoosterPack sampleState
          (Except.ok ⟨some [mkCard "c1", mkCard "c2"], false⟩)
          (Except.ok ⟨some [⟨"c1"⟩], false⟩) (Except.error ())).1 :=
  ⟨rfl, Or.inl rfl,
    openBoosterPack_fallback_refines_primary sampleState [mkCard "c1", mkCard "c2"]
      [⟨"c1"⟩] ⟨none, true⟩ (Except.error ()) rfl (Or.inl rfl)⟩

/-- Claim C4: on the primary path the merger returns a list of the same
length, in the same order, each element carrying the unchanged source card and
`owned` true exactly when the card's id occurs among the returned
`card_id`s. -/
theorem openBoosterPack_merger_annotates_membership (st : BoosterState)
    (randomCards : List Card) (rows : List GameCollectionRow)
    (rpcRes : Except Unit (TableOutcome (List GameCollectionRow)))
    (i : Nat) (hLogin : st.isLoggedIn = true) (hi : i < randomCards.length) :
    ((openBoosterPack st (Except.ok ⟨some randomCards, false⟩)
        (Except.ok ⟨some rows, false⟩) rpcRes).1.boosterCards).length
      = randomCards.length ∧
    ((openBoosterPack st (Except.ok ⟨some randomCards, false⟩)
        (Except.ok ⟨some rows, false⟩) rpcRes).1.boosterCards)[i]?
      = some { toCard := randomCards[i],
               owned := decide (randomCards[i].id ∈ rows.map GameCollectionRow.card_id) } := by
  constructor
  · simp [openBoosterPack, hLogin, cardsWithStatus]
  · simp [openBoosterPack, hLogin, cardsWithStatus, List.getElem?_eq_getElem hi]

/-- Witness for C4: the spec scenario — owned set `{c1, c3}` among candidates
`[c1, c2, c3]`; position 1 (`c2`) comes back unchanged with `owned = false`,
and instantiating the theorem at positions 0 and 2 gives `owned = true`. -/
theorem openBoosterPack_merger_annotates_membership_witness :
    sampleState.isLoggedIn = true ∧ (1 : Nat) < 3 ∧
    ((openBoosterPack sampleState
        (Except.ok ⟨some [mkCard "c1", mkCard "c2", mkCard "c3"], false⟩)
        (Except.ok ⟨some [⟨"c1"⟩, ⟨"c3"⟩], false⟩) (Except.error ())).1.boosterCards).length
      = 3 ∧
    ((openBoosterPack sampleState
        (Except.ok ⟨some [mkCard "c1", mkCard "c2", mkCard "c3"], false⟩)
        (Except.ok ⟨some [⟨"c1"⟩, ⟨"c3"⟩], false⟩) (Except.error ())).1.boosterCards)[1]?
      = some { toCard := mkCard "c2",
               owned := decide ((mkCard "c2").id ∈
                 ([⟨"c1"⟩, ⟨"c3"⟩] : List GameCollectionRow).map GameCollectionRow.card_id) } :=
  ⟨rfl, by decide,
    (openBoosterPack_merger_annotates_membership sampleState
      [mkCard "c1", mkCard "c2", mkCard "c3"] [⟨"c1"⟩, ⟨"c3"⟩] (Except.error ())
      1 rfl (by decide)).1,
    (openBoosterPack_merger_annotates_membership sampleState
      [mkCard "c1", mkCard "c2", mkCard "c3"] [⟨"c1"⟩, ⟨"c3"⟩] (Except.error ())
      1 rfl (by decide)).2⟩

/-- Claim C7: the pack selection is a fixed ordered query — it returns the
first at most 5 cards of the table sorted by `id`, and two openings against
the same table (with the same collection rows) show the same cards. -/
theorem selectBoosterCards_fixed_ordered_query (cardsTable : List Card)
    (st₁ st₂ : BoosterState) (rows : List GameCollectionRow)
    (rpcRes : Except Unit (TableOutcome (List GameCollectionRow)))
    (h₁ : st₁.isLoggedIn = true) (h₂ : st₂.isLoggedIn = true) :
    (∃ sorted : List Card, sorted.Perm cardsTable ∧
        sorted.Sorted (fun a b : Card => a.id ≤ b.id) ∧
        selectBoosterCards cardsTable = sorted.take 5) ∧
    (selectBoosterCards cardsTable).length ≤ 5 ∧
    (openBoosterPack st₁ (Except.ok ⟨some (selectBoosterCards cardsTable), false⟩)
        (Except.ok ⟨some rows, false⟩) rpcRes).1.boosterCards
      = (openBoosterPack st₂ (Except.ok ⟨some (selectBoosterCards cardsTable), false⟩)
          (Except.ok ⟨some rows, false⟩) rpcRes).1.boosterCards := by
  refine ⟨⟨cardsTable.mergeSort fun a b => a.id ≤ b.id,
      List.mergeSort_perm cardsTable _, ?_, rfl⟩, ?_, ?_⟩
  · have h := @List.sorted_mergeSort Card (fun a b : Card => decide (a.id ≤ b.id))
      ?_ ?_ cardsTable
    · exact List.Pairwise.imp (by simp) h
    · intro a b c hab hbc
      simp only [decide_eq_true_eq] at hab hbc ⊢
      exact le_trans hab hbc
    · intro a b
      rcases le_total a.id b.id with h | h <;> simp [h]
  · simp [selectBoosterCards]
  · simp [openBoosterPack, h₁, h₂]

/-- Witness for C7 at a concrete unsorted two-card table. -/
theorem selectBoosterCards_fixed_ordered_query_witness :
    sampleState.isLoggedIn = true ∧
    ({ sampleState with gameCollectionCount := 7 } : BoosterState).isLoggedIn = true ∧
    (selectBoosterCards [mkCard "b", mkCard "a"]).length ≤ 5 ∧
    (openBoosterPack sampleState
        (Except.ok ⟨some (selectBoosterCards [mkCard "b", mkCard "a"]), false⟩)
        (Except.ok ⟨some [⟨"a"⟩], false⟩) (Except.error ())).1.boosterCards
      = (openBoosterPack { sampleState with gameCollectionCount := 7 }
          (Except.ok ⟨some (selectBoosterCards [mkCard "b", mkCard "a"]), false⟩)
          (Except.ok ⟨some [⟨"a"⟩], false⟩) (Except.error ())).1.boosterCards :=
  ⟨rfl, rfl,
    (selectBoosterCards_fixed_ordered_query [mkCard "b", mkCard "a"] sampleState
      { sampleState with gameCollectionCount := 7 } [⟨"a"⟩] (Except.error ())
      rfl rfl).2.1,
    (selectBoosterCards_fixed_ordered_query [mkCard "b", mkCard "a"] sampleState
      { sampleState with gameCollectionCount := 7 } [⟨"a"⟩] (Except.error ())
      rfl rfl).2.2⟩

/-- Every card marked by the local success patch with the target id carries
`owned = true`. -/
theorem applyAddSuccess_owned (st : BoosterState) (cardId : String) :
    ∀ c ∈ (applyAddSuccess st cardId).boosterCards, c.id = cardId → c.owned = true := by
  intro c hc hid
  simp only [applyAddSuccess, List.mem_map] at hc
  obtain ⟨a, _, rfl⟩ := hc
  by_cases h : a.id == cardId
  · simp [h]
  · simp only [h, if_neg, Bool.false_eq_true, ite_false] at hid ⊢
    exact absurd (by simpa using hid) (by simpa using h)

/-- A booster state in which user `u1` already owns card `c1` (its row is in
the store and its pack card is flagged owned), with displayed count 1. -/
def reAddState : BoosterState :=
  { isLoggedIn := true, showAuthModal := false, username := "u1",
    boosterCards := [{ toCard := mkCard "c1", owned := true }],
    isOpened := true, isLoading := false, gameCollectionCount := 1 }

/-- Claim C1 counterexample: re-adding the already-owned card `c1` through a
call that succeeds via the RPC fallback leaves the store without a duplicate
row, yet the displayed game-collection count rises from 1 to 2 — the displayed
count is incremented on every successful call, so it is not idempotent. -/
theorem readd_success_increments_displayed_count :
    insertGameCollectionRow [("u1", "c1")] "u1" "c1" = [("u1", "c1")] ∧
    reAddState.boosterCards = [{ toCard := mkCard "c1", owned := true }] ∧
    reAddState.gameCollectionCount = 1 ∧
    (addToGameCollection reAddState "c1" (Except.ok ⟨true⟩) (Except.ok ⟨false⟩)).2.1
      = some (Toast.success "Card added to your game collection!") ∧
    (addToGameCollection reAddState "c1" (Except.ok ⟨true⟩)
        (Except.ok ⟨false⟩)).1.gameCollectionCount = 2 := by
  refine ⟨?_, rfl, rfl, rfl, rfl⟩
  simp [insertGameCollectionRow]

/-- Claim C1 amended: after a successful add call the target card's `owned`
flag is true and the backing store gains no duplicate row (re-inserting an
existing (user, card) pair leaves the store unchanged), but the displayed
count is incremented by one on every successful call — re-adds included. -/
theorem addToGameCollection_success_sets_owned (st : BoosterState)
    (cardId userId : String) (insertRes rpcRes : Except Unit MutationOutcome)
    (rows : List (String × String)) (hLogin : st.isLoggedIn = true)
    (hSuccess : insertRes = Except.ok ⟨false⟩ ∨
      (insertRes = Except.ok ⟨true⟩ ∧ rpcRes = Except.ok ⟨false⟩)) :
    (∀ c ∈ (addToGameCollection st cardId insertRes rpcRes).1.boosterCards,
        c.id = cardId → c.owned = true) ∧
    (addToGameCollection st cardId insertRes rpcRes).2.1
      = some (Toast.success "Card added to your game collection!") ∧
    (addToGameCollection st cardId insertRes rpcRes).1.gameCollectionCount
      = st.gameCollectionCount + 1 ∧
    ((userId, cardId) ∈ rows → insertGameCollectionRow rows userId cardId = rows) ∧
    (userId, cardId) ∈ insertGameCollectionRow rows userId cardId := by
  have hstore₁ : (userId, cardId) ∈ rows →
      insertGameCollectionRow rows userId cardId = rows := by
    intro h; simp [insertGameCollectionRow, h]
  have hstore₂ : (userId, cardId) ∈ insertGameCollectionRow rows userId cardId := by
    by_cases h : (userId, cardId) ∈ rows <;> simp [insertGameCollectionRow, h]
  rcases hSuccess with h | ⟨h₁, h₂⟩
  · subst h
    exact ⟨by simpa [addToGameCollection, hLogin] using applyAddSuccess_owned st cardId,
      by simp [addToGameCollection, hLogin],
      by simp [addToGameCollection, hLogin, applyAddSuccess], hstore₁, hstore₂⟩
  · subst h₁; subst h₂
    exact ⟨by simpa [addToGameCollection, hLogin] using applyAddSuccess_owned st cardId,
      by simp [addToGameCollection, hLogin],
      by simp [addToGameCollection, hLogin, applyAddSuccess], hstore₁, hstore₂⟩

/-- Witness for the amended C1: a fresh add of `c2` to a one-card collection
raises the count from 1 to 2 and stores the new row. -/
theorem addToGameCollection_success_sets_owned_witness :
    reAddState.isLoggedIn = true ∧
    ((Except.ok ⟨false⟩ : Except Unit MutationOutcome) = Except.ok ⟨false⟩ ∨
      ((Except.ok ⟨false⟩ : Except Unit MutationOutcome) = Except.ok ⟨true⟩ ∧
        (Except.ok ⟨false⟩ : Except Unit MutationOutcome) = Except.ok ⟨false⟩)) ∧
    (addToGameCollection reAddState "c2" (Except.ok ⟨false⟩) (Except.ok ⟨false⟩)).2.1
      = some (Toast.success "Card added to your game collection!") ∧
    (addToGameCollection reAddState "c2" (Except.ok ⟨false⟩)
        (Except.ok ⟨false⟩)).1.gameCollectionCount = reAddState.gameCollectionCount + 1 ∧
    ("u1", "c2") ∈ insertGameCollectionRow [("u1", "c1")] "u1" "c2" :=
  ⟨rfl, Or.inl rfl,
    (addToGameCollection_success_sets_owned reAddState "c2" "u1"
      (Except.ok ⟨false⟩) (Except.ok ⟨false⟩) [("u1", "c1")] rfl (Or.inl rfl)).2.1,
    (addToGameCollection_success_sets_owned reAddState "c2" "u1"
      (Except.ok ⟨false⟩) (Except.ok ⟨false⟩) [("u1", "c1")] rfl (Or.inl rfl)).2.2.1,
    (addToGameCollection_success_sets_owned reAddState "c2" "u1"
      (Except.ok ⟨false⟩) (Except.ok ⟨false⟩) [("u1", "c1")] rfl (Or.inl rfl)).2.2.2.2⟩

/-- Claim C5: if the primary insert reports an error and the RPC fallback also
fails (error result or thrown), a failure toast is raised and the local state
— booster cards, count, and all other fields — is exactly the previous
state. -/
theorem addToGameCollection_double_failure_frame (st : BoosterState)
    (cardId : String) (rpcRes : Except Unit MutationOutcome)
    (hLogin : st.isLoggedIn = true)
    (hRpcFail : rpcRes = Except.error () ∨ rpcRes = Except.ok ⟨true⟩) :
    (addToGameCollection st cardId (Except.ok ⟨true⟩) rpcRes).1 = st ∧
    (addToGameCollection st cardId (Except.ok ⟨true⟩) rpcRes).2.1
      = some (Toast.error "Failed to add card to collection") := by
  rcases hRpcFail with h | h <;> subst h <;>
    exact ⟨by simp [addToGameCollection, hLogin], by simp [addToGameCollection, hLogin]⟩

/-- Witness for C5 at a concrete state with both mutation paths failing. -/
theorem addToGameCollection_double_failure_frame_witness :
    reAddState.isLoggedIn = true ∧
    ((Except.error () : Except Unit MutationOutcome) = Except.error () ∨
      (Except.error () : Except Unit MutationOutcome) = Except.ok ⟨true⟩) ∧
    (addToGameCollection reAddState "c1" (Except.ok ⟨true⟩) (Except.error ())).1
      = reAddState ∧
    (addToGameCollection reAddState "c1" (Except.ok ⟨true⟩) (Except.error ())).2.1
      = some (Toast.error "Failed to add card to collection") :=
  ⟨rfl, Or.inl rfl,
    (addToGameCollection_double_failure_frame reAddState "c1" (Except.error ())
      rfl (Or.inl rfl)).1,
    (addToGameCollection_double_failure_frame reAddState "c1" (Except.error ())
      rfl (Or.inl rfl)).2⟩

/-- Claim C9: when the primary count helper throws and the RPC fallback fails
(thrown or error result), `fetchGameCollectionCount` keeps the previous count
and raises no toast — it does not default the count to zero. -/
theorem fetchGameCollectionCount_double_failure_keeps_count (prevCount : Nat)
    (rpcRes : Except Unit RpcCountOutcome)
    (hRpcFail : rpcRes = Except.error () ∨
      ∃ out : RpcCountOutcome, rpcRes = Except.ok out ∧ out.error = true) :
    fetchGameCollectionCount prevCount (Except.error ()) rpcRes
      = (prevCount, none, [BackendCall.countQuery, BackendCall.countRpc]) := by
  rcases hRpcFail with h | ⟨out, h, hErr⟩ <;> subst h
  · rfl
  · simp [fetchGameCollectionCount, hErr]

/-- Witness for C9 at a concrete previous count of 4. -/
theorem fetchGameCollectionCount_double_failure_keeps_count_witness :
    ((Except.error () : Except Unit RpcCountOutcome) = Except.error () ∨
      ∃ out : RpcCountOutcome, (Except.error () : Except Unit RpcCountOutcome)
        = Except.ok out ∧ out.error = true) ∧
    fetchGameCollectionCount 4 (Except.error ()) (Except.error ())
      = (4, none, [BackendCall.countQuery, BackendCall.countRpc]) :=
  ⟨Or.inl rfl,
    fetchGameCollectionCount_double_failure_keeps_count 4 (Except.error ()) (Or.inl rfl)⟩

/-- Claim C8: a catalog lookup miss (card or set absent) renders the inline
not-found view; missing route parameters render the inline requirement view —
`renderCardDetails` is total, so neither case escapes as an error. -/
theorem renderCardDetails_not_found_inline (catalog : MockCatalog)
    (setId cardId : String) (other : Option String)
    (hMiss : getCardDetails catalog setId cardId = none ∨
      getSetDetails catalog setId = none) :
    renderCardDetails (some setId) (some cardId) catalog = CardDetailsView.notFound ∧
    renderCardDetails none other catalog = CardDetailsView.missingParams ∧
    renderCardDetails other none catalog = CardDetailsView.missingParams := by
  refine ⟨?_, rfl, ?_⟩
  · rcases hMiss with h | h
    · simp only [renderCardDetails, h]
    · simp only [renderCardDetails, h]
      rcases getCardDetails catalog setId cardId with _ | cd <;> rfl
  · rcases other with _ | s <;> rfl

/-- Witness for C8: the spec scenario — set `base1`, card `base1-4`, a catalog
that does not contain them. -/
theorem renderCardDetails_not_found_inline_witness :
    (getCardDetails ⟨[], []⟩ "base1" "base1-4" = none ∨
      getSetDetails ⟨[], []⟩ "base1" = none) ∧
    renderCardDetails (some "base1") (some "base1-4") ⟨[], []⟩
      = CardDetailsView.notFound ∧
    renderCardDetails none (some "base1-4") ⟨[], []⟩ = CardDetailsView.missingParams ∧
    renderCardDetails (some "base1-4") none ⟨[], []⟩ = CardDetailsView.missingParams :=
  ⟨Or.inl rfl,
    (renderCardDetails_not_found_inline ⟨[], []⟩ "base1" "base1-4"
      (some "base1-4") (Or.inl rfl)).1,
    (renderCardDetails_not_found_inline ⟨[], []⟩ "base1" "base1-4"
      (some "base1-4") (Or.inl rfl)).2.1,
    (renderCardDetails_not_found_inline ⟨[], []⟩ "base1" "base1-4"
      (some "base1-4") (Or.inl rfl)).2.2⟩

/-- Claim C10: the details-page ownership toggle performs no backend call,
flips only the local `isOwned` flag (login state, auth modal and username are
untouched, and no login is required — the statement holds for every state),
and applying it twice restores the original state exactly. -/
theorem handleToggleOwned_pure_local_involution (cardName : String)
    (st : CardDetailsState) :
    (handleToggleOwned cardName st).2.2 = [] ∧
    (handleToggleOwned cardName st).1.isOwned = !st.isOwned ∧
    (handleToggleOwned cardName st).1.isLoggedIn = st.isLoggedIn ∧
    (handleToggleOwned cardName st).1.showAuthModal = st.showAuthModal ∧
    (handleToggleOwned cardName st).1.username = st.username ∧
    (handleToggleOwned cardName (handleToggleOwned cardName st).1).1 = st := by
  cases st
  simp [handleToggleOwned]

end PokeHub
